import Mathlib

/-!
Verification of the `pack` command core (charmcraft/commands/pack.py).

The development shallowly embeds the module: `build_zip` becomes a pure
function from a directory tree to the list of archive entry names,
`PackCommand.run` and `PackCommand._pack_bundle` become pure functions from
the parsed arguments, the loaded configuration and an environment oracle
(file system contents, managed-mode flag, lifecycle outcome) to a result
plus a record of the observable effects (shell launches, file reads,
lifecycle invocations, archives written).
-/

namespace Charmcraft

/-- The minimum set of files in a bundle (`MANDATORY_FILES` in pack.py). -/
def MANDATORY_FILES : List String := ["bundle.yaml", "README.md"]

/-- Modelled from the spec: the `build` module is not among the sources at
hand; its `BUILD_DIRNAME` constant names the work directory
`<projectRoot>/build`, so the constant is the literal `"build"`. -/
def BUILD_DIRNAME : String := "build"

/-- A declared part: plugin, optional source, optional prime filter list and
the remaining opaque key/value options of the part dictionary. -/
structure PartDef where
  plugin : Option String := none
  source : Option String := none
  prime : Option (List String) := none
  other : List (String × String) := []
deriving DecidableEq

/-- A parts mapping: association list from part name to definition,
modelling the Python dict (keys unique, declaration order kept). -/
abbrev PartsMap := List (String × PartDef)

/-- Python `dict.get`: first value stored under the key, if any. -/
def getPart (m : PartsMap) (k : String) : Option PartDef :=
  match m with
  | [] => none
  | (k0, v) :: rest => if k0 = k then some v else getPart rest k

/-- Replace the value stored under a key; models the in-place mutation of
the aliased part dictionary inside `config_parts`. -/
def setPart (m : PartsMap) (k : String) (v : PartDef) : PartsMap :=
  match m with
  | [] => []
  | (k0, v0) :: rest => (if k0 = k then (k0, v) else (k0, v0)) :: setPart rest k v

/-- The parsed `bundle.yaml` content as returned by `load_yaml`: the `name`
key and the remaining opaque keys. -/
structure BundleConfig where
  name : Option String := none
  other : List (String × String) := []
deriving DecidableEq

/-- Python falsy test for an optional string (`None` or the empty string). -/
def strFalsy : Option String → Bool
  | none => true
  | some s => s = ""

/-- The command-line arguments `PackCommand.fill_parser` declares. -/
structure ParsedArgs where
  debug : Bool := false
  destructive_mode : Bool := false
  entrypoint : Option String := none
  requirement : Option (List String) := none
  shell : Bool := false
  shell_after : Bool := false
  bases_index : Option (List Int) := none
  force : Bool := false
deriving DecidableEq

/-- The slice of `self.config` that `run`/`_pack_bundle` read: the declared
type, whether a charmcraft.yaml was provided, the declared parts and the
project directory path. -/
structure Config where
  type : Option String := none
  config_provided : Bool := false
  parts : PartsMap := []
  dirpath : String := "/project"
deriving DecidableEq

/-- The kind of exception the parts lifecycle (or the charm build
collaborators) may raise; the handler in `_pack_bundle` catches
`RuntimeError` and `CommandError` only. -/
inductive ExcKind where
  | runtimeError
  | commandError
  | otherExc
deriving DecidableEq

/-- Does the `except (RuntimeError, CommandError)` clause catch this kind? -/
def caughtKind : ExcKind → Bool
  | .otherExc => false
  | _ => true

/-- A `CommandError` raised directly by pack.py, carrying the data its
message interpolates. -/
inductive PackError where
  | entrypointOnlyForCharm
  | requirementOnlyForCharm
  | unknownType (declared : Option String)
  | missingOrInvalidBundleFile (path : String)
  | missingBundleName (path : String)
  | missingMandatoryFile (path : String)
deriving DecidableEq

/-- An exception propagating out of `run`: either a `CommandError` raised by
pack.py itself, or an exception of a collaborator re-raised unchanged. -/
inductive Raised where
  | cmd (e : PackError)
  | exc (k : ExcKind)
deriving DecidableEq

/-- The environment oracle: what `load_yaml` returns for bundle.yaml, which
paths exist, the managed-mode answer of the `env` module, the outcome of
`PartsLifecycle.run` and its prime directory, and the outcome of the charm
build collaborators. -/
structure World where
  bundleConfig : Option BundleConfig := none
  existing : List String := []
  managedMode : Bool := false
  managedHome : String := "/home/managed"
  lifecycleExc : Option ExcKind := none
  primeDir : String := "/project/build/prime"
  charmExc : Option ExcKind := none
deriving DecidableEq

/-- One invocation of `parts.PartsLifecycle(...)` followed by
`lifecycle.run(Step.PRIME)`: the arguments pack.py passes. -/
structure LifecycleCall where
  plan : PartsMap
  work_dir : String
  project_dir : String
  ignore_local_sources : List String
deriving DecidableEq

/-- The observable effects of one `run` invocation. -/
structure Effects where
  shellCalls : Nat := 0
  filesRead : List String := []
  mandatoryChecks : List String := []
  lifecycleCalls : List LifecycleCall := []
  manifests : List String := []
  archives : List String := []
deriving DecidableEq

/-- No observable effect yet. -/
def noEffects : Effects := {}

/-- The `config_parts` value: the declared parts, or the implicit single
`bundle` part when nothing is declared (`if self.config.parts: ... else`). -/
def implicitParts (cfg : Config) : PartsMap :=
  if cfg.parts.isEmpty then [("bundle", { plugin := some "bundle" })] else cfg.parts

/-- The special part: a part literally named `bundle` whose plugin is
`bundle` (`config_parts.get("bundle")` plus the plugin test). -/
def specialOf (m : PartsMap) : Option PartDef :=
  match getPart m "bundle" with
  | some p => if p.plugin = some "bundle" then some p else none
  | none => none

/-- The mandatory-file loop body: walk `MANDATORY_FILES` in order, recording
each existence check performed, stopping at the first missing path. -/
def checkMandatoryFrom (dirpath : String) (existing : List String) :
    List String → List String × Option String
  | [] => ([], none)
  | f :: rest =>
    let fpath := dirpath ++ "/" ++ f
    if existing.contains fpath then
      let r := checkMandatoryFrom dirpath existing rest
      (fpath :: r.1, r.2)
    else ([fpath], some fpath)

/-- The `for fname in MANDATORY_FILES` existence loop of `_pack_bundle`. -/
def checkMandatory (dirpath : String) (existing : List String) :
    List String × Option String :=
  checkMandatoryFrom dirpath existing MANDATORY_FILES

/-- The mandatory-file checks actually performed: none when there is no
special bundle part (the loop sits inside `if special_bundle_part:`). -/
def mandatoryResult (cfg : Config) (w : World) (special : Option PartDef) :
    List String × Option String :=
  match special with
  | none => ([], none)
  | some _ => checkMandatory cfg.dirpath w.existing

/-- The plan handed to the lifecycle: when the special bundle part exists,
its prime list gains `MANDATORY_FILES` at the end (`setdefault` plus
`extend`) and its source defaults to the project directory when falsy;
otherwise the mapping is used verbatim. -/
def planOf (cfg : Config) (m : PartsMap) : PartsMap :=
  match specialOf m with
  | none => m
  | some sp =>
    let sp1 : PartDef := { sp with prime := some (sp.prime.getD [] ++ MANDATORY_FILES) }
    let sp2 : PartDef :=
      if strFalsy sp1.source then { sp1 with source := some cfg.dirpath } else sp1
    setPart m "bundle" sp2

/-- The tail of `_pack_bundle` from `lifecycle.run(Step.PRIME)` on: the
try/except around the run, then manifest creation, `build_zip` and the
optional shell-after launch. -/
def lifecycleOutcome (args : ParsedArgs) (cfg : Config) (w : World)
    (bundle_name : String) (baseEff : Effects) :
    Except Raised (List String) × Effects :=
  match w.lifecycleExc with
  | some k =>
    if caughtKind k then
      (.error (.exc k), { baseEff with shellCalls := if args.debug then 1 else 0 })
    else
      (.error (.exc k), baseEff)
  | none =>
    let zipname := cfg.dirpath ++ "/" ++ (bundle_name ++ ".zip")
    (.ok [zipname],
      { baseEff with
        manifests := [w.primeDir]
        archives := [zipname]
        shellCalls := if args.shell_after then 1 else 0 })

/-- Shallow embedding of `PackCommand._pack_bundle`. -/
def pack_bundle (args : ParsedArgs) (cfg : Config) (w : World) :
    Except Raised (List String) × Effects :=
  if args.shell then
    (.ok [], { noEffects with shellCalls := 1 })
  else
    let config_parts := implicitParts cfg
    let special := specialOf config_parts
    let bundle_filepath := cfg.dirpath ++ "/bundle.yaml"
    match w.bundleConfig with
    | none =>
      (.error (.cmd (.missingOrInvalidBundleFile bundle_filepath)),
        { noEffects with filesRead := [bundle_filepath] })
    | some bundle_config =>
      if strFalsy bundle_config.name then
        (.error (.cmd (.missingBundleName bundle_filepath)),
          { noEffects with filesRead := [bundle_filepath] })
      else
        let bundle_name := bundle_config.name.getD ""
        let mr := mandatoryResult cfg w special
        match mr.2 with
        | some missing =>
          (.error (.cmd (.missingMandatoryFile missing)),
            { noEffects with filesRead := [bundle_filepath], mandatoryChecks := mr.1 })
        | none =>
          let plan := planOf cfg config_parts
          let work_dir :=
            if w.managedMode then w.managedHome else cfg.dirpath ++ "/" ++ BUILD_DIRNAME
          let call : LifecycleCall :=
            { plan := plan
              work_dir := work_dir
              project_dir := cfg.dirpath
              ignore_local_sources := [bundle_name ++ ".zip"] }
          lifecycleOutcome args cfg w bundle_name
            { noEffects with
              filesRead := [bundle_filepath]
              mandatoryChecks := mr.1
              lifecycleCalls := [call] }

/-- Shallow embedding of `PackCommand._pack_charm`: pure delegation to the
external build Validator/Builder collaborators; the Python body has no
return statement, so on success the value is `None`. -/
def pack_charm (_args : ParsedArgs) (_cfg : Config) (w : World) :
    Except Raised (Option (List String)) × Effects :=
  match w.charmExc with
  | some k => (.error (.exc k), noEffects)
  | none => (.ok none, noEffects)

deriving instance DecidableEq for Except

/-- Which packaging routine the dispatch in `run` invoked. -/
inductive ArtifactType where
  | charm
  | bundle
deriving DecidableEq

/-- The outcome of one `PackCommand.run` invocation. -/
structure RunOutcome where
  path : Option ArtifactType
  result : Except Raised (Option (List String))
  eff : Effects
deriving DecidableEq

/-- Shallow embedding of `PackCommand.run`: the charm/bundle dispatch, the
charm-only option checks, and the calls to the packing routines (whose
return values `run` discards, itself returning `None`). -/
def run (args : ParsedArgs) (cfg : Config) (w : World) : RunOutcome :=
  if cfg.type = some "charm" ∨ cfg.config_provided = false then
    let r := pack_charm args cfg w
    { path := some .charm, result := r.1, eff := r.2 }
  else if cfg.type = some "bundle" then
    if args.entrypoint.isSome then
      { path := some .bundle
        result := .error (.cmd .entrypointOnlyForCharm)
        eff := noEffects }
    else if args.requirement.isSome then
      { path := some .bundle
        result := .error (.cmd .requirementOnlyForCharm)
        eff := noEffects }
    else
      let r := pack_bundle args cfg w
      { path := some .bundle
        result := r.1.map (fun _ => none)
        eff := r.2 }
  else
    { path := none, result := .error (.cmd (.unknownType cfg.type)), eff := noEffects }

/-- A filesystem object below the prime directory: a regular file or a
directory with named entries (the model contains no symbolic links, so a
walk that follows links coincides with the plain recursive walk). -/
inductive FsObj where
  | file
  | dir (entries : List (String × FsObj))

/-- Path as a list of segments (what pathlib joins with separators). -/
abbrev FPath := List String

/-- Names of the regular files directly inside a directory listing: the
`filenames` component that `os.walk` yields for that directory. -/
def levelFiles : List (String × FsObj) → List String
  | [] => []
  | (n, .file) :: rest => n :: levelFiles rest
  | (_, .dir _) :: rest => levelFiles rest

mutual

/-- Top-down `os.walk` over a directory: one `(dirpath, filenames)` record
for this directory, then the records of every subdirectory in order. -/
def walkDir (dirpath : FPath) (entries : List (String × FsObj)) :
    List (FPath × List String) :=
  (dirpath, levelFiles entries) :: walkSub dirpath entries

/-- The recursive part of the walk: descend into each subdirectory. -/
def walkSub (dirpath : FPath) :
    List (String × FsObj) → List (FPath × List String)
  | [] => []
  | (_, .file) :: rest => walkSub dirpath rest
  | (n, .dir es) :: rest => walkDir (dirpath ++ [n]) es ++ walkSub dirpath rest

end

/-- `pathlib.PurePath.relative_to` for a path below the base: drop the base
segments. -/
def relative_to (p base : FPath) : FPath := p.drop base.length

/-- Shallow embedding of `build_zip`: walk the prime directory and record,
for every regular file, the archive entry name
`str(filepath.relative_to(prime_dir))` in the order written. -/
def build_zip (prime_dir : FPath) (tree : List (String × FsObj)) : List FPath :=
  ((walkDir prime_dir tree).map
    (fun pr => pr.2.map (fun filename => relative_to (pr.1 ++ [filename]) prime_dir))).flatten

/-- Specification-side reading of the walk: the relative path of every
regular file of the tree, in directory-listing order. -/
def relFilesDir : List (String × FsObj) → List FPath
  | [] => []
  | (n, .file) :: rest => [n] :: relFilesDir rest
  | (n, .dir es) :: rest => (relFilesDir es).map (fun p => n :: p) ++ relFilesDir rest

/-- The relative file paths contributed by the subdirectories only. -/
def dirsRel : List (String × FsObj) → List FPath
  | [] => []
  | (_, .file) :: rest => dirsRel rest
  | (n, .dir es) :: rest => (relFilesDir es).map (fun p => n :: p) ++ dirsRel rest

/-- Archive entry names obtained from one walk record. -/
def entriesOf (root : FPath) (pr : FPath × List String) : List FPath :=
  pr.2.map (fun filename => relative_to (pr.1 ++ [filename]) root)

/-- Archive entry names obtained from a list of walk records. -/
def zipFrom (root : FPath) (walked : List (FPath × List String)) : List FPath :=
  (walked.map (entriesOf root)).flatten

/-- Concrete inputs exercising the counterexample to the blanket exception
claim: debug requested and the lifecycle raising an exception that is
neither `RuntimeError` nor `CommandError`. -/
def c3args : ParsedArgs := { debug := true }

/-- A well-formed bundle project configuration. -/
def c3cfg : Config := { type := some "bundle", config_provided := true, dirpath := "/project" }

/-- A world whose lifecycle raises an uncaught exception kind. -/
def c3w : World :=
  { bundleConfig := some { name := some "mybundle" }
    existing := ["/project/bundle.yaml", "/project/README.md"]
    lifecycleExc := some .otherExc }

/-- Arguments for a plain successful pack invocation. -/
def c9args : ParsedArgs := {}

/-- A bundle project configuration for the successful pack invocation. -/
def c9cfg : Config := { type := some "bundle", config_provided := true, dirpath := "/project" }

/-- A world in which the bundle pack invocation succeeds. -/
def c9w : World :=
  { bundleConfig := some { name := some "mybundle" }
    existing := ["/project/bundle.yaml", "/project/README.md"] }

/-- A declared special bundle part whose prime list already names
bundle.yaml, to exhibit the duplicate after injection. -/
def c10part : PartDef := { plugin := some "bundle", prime := some ["bundle.yaml"] }

/-- A configuration declaring only that special part. -/
def c10cfg : Config :=
  { type := some "bundle", config_provided := true, dirpath := "/project"
    parts := [("bundle", c10part)] }

/-! Helper lemmas shared by the claim theorems. -/

theorem getPart_cons (k0 : String) (v0 : PartDef) (rest : PartsMap) (k : String) :
    getPart ((k0, v0) :: rest) k = if k0 = k then some v0 else getPart rest k := rfl

theorem setPart_cons (k0 : String) (v0 : PartDef) (rest : PartsMap) (k : String) (v : PartDef) :
    setPart ((k0, v0) :: rest) k v = (if k0 = k then (k0, v) else (k0, v0)) :: setPart rest k v :=
  rfl

theorem getPart_setPart (m : PartsMap) (k : String) (v p : PartDef)
    (h : getPart m k = some p) : getPart (setPart m k v) k = some v := by
  induction m with
  | nil => simp [getPart] at h
  | cons kv rest ih =>
    obtain ⟨k0, v0⟩ := kv
    rw [getPart_cons] at h
    rw [setPart_cons]
    by_cases hk : k0 = k
    · subst hk
      rw [if_pos rfl, getPart_cons, if_pos rfl]
    · rw [if_neg hk] at h
      rw [if_neg hk, getPart_cons, if_neg hk]
      exact ih h

theorem lifecycleOutcome_calls (args : ParsedArgs) (cfg : Config) (w : World)
    (bn : String) (eff : Effects) :
    (lifecycleOutcome args cfg w bn eff).2.lifecycleCalls = eff.lifecycleCalls := by
  unfold lifecycleOutcome
  cases w.lifecycleExc with
  | none => simp
  | some k => cases hc : caughtKind k <;> simp [hc]

theorem lifecycleOutcome_checks (args : ParsedArgs) (cfg : Config) (w : World)
    (bn : String) (eff : Effects) :
    (lifecycleOutcome args cfg w bn eff).2.mandatoryChecks = eff.mandatoryChecks := by
  unfold lifecycleOutcome
  cases w.lifecycleExc with
  | none => simp
  | some k => cases hc : caughtKind k <;> simp [hc]

theorem lifecycleOutcome_reads (args : ParsedArgs) (cfg : Config) (w : World)
    (bn : String) (eff : Effects) :
    (lifecycleOutcome args cfg w bn eff).2.filesRead = eff.filesRead := by
  unfold lifecycleOutcome
  cases w.lifecycleExc with
  | none => simp
  | some k => cases hc : caughtKind k <;> simp [hc]

theorem pack_bundle_eq (args : ParsedArgs) (cfg : Config) (w : World) (bc : BundleConfig)
    (hshell : args.shell = false) (hbc : w.bundleConfig = some bc)
    (hname : strFalsy bc.name = false)
    (hck : (mandatoryResult cfg w (specialOf (implicitParts cfg))).2 = none) :
    pack_bundle args cfg w =
      lifecycleOutcome args cfg w (bc.name.getD "")
        { noEffects with
          filesRead := [cfg.dirpath ++ "/bundle.yaml"]
          mandatoryChecks := (mandatoryResult cfg w (specialOf (implicitParts cfg))).1
          lifecycleCalls :=
            [{ plan := planOf cfg (implicitParts cfg)
               work_dir :=
                 if w.managedMode then w.managedHome else cfg.dirpath ++ "/" ++ BUILD_DIRNAME
               project_dir := cfg.dirpath
               ignore_local_sources := [bc.name.getD "" ++ ".zip"] }] } := by
  simp [pack_bundle, hshell, hbc, hname, hck]

/-- C2: given an empty declared parts mapping, the parts plan handed to the
lifecycle is exactly one part named "bundle" with plugin "bundle", whose
prime-filter list is exactly bundle.yaml followed by README.md and whose
source is the project root directory. -/
theorem C2_implicit_bundle_plan (args : ParsedArgs) (cfg : Config) (w : World)
    (bc : BundleConfig)
    (hshell : args.shell = false) (hparts : cfg.parts = [])
    (hbc : w.bundleConfig = some bc) (hname : strFalsy bc.name = false)
    (hfiles : (checkMandatory cfg.dirpath w.existing).2 = none) :
    ((pack_bundle args cfg w).2.lifecycleCalls).map (fun c => c.plan) =
      [[("bundle",
         { plugin := some "bundle", source := some cfg.dirpath
           prime := some ["bundle.yaml", "README.md"], other := [] })]] := by
  have hck : (mandatoryResult cfg w (specialOf (implicitParts cfg))).2 = none := by
    simp [mandatoryResult, specialOf, implicitParts, hparts, getPart, hfiles]
  rw [pack_bundle_eq args cfg w bc hshell hbc hname hck, lifecycleOutcome_calls]
  simp [planOf, specialOf, implicitParts, hparts, getPart, setPart, MANDATORY_FILES, strFalsy]

/-- C2 witness: a concrete empty-parts invocation producing exactly the
implicit plan. -/
theorem C2_implicit_bundle_plan_witness :
    ((pack_bundle c9args c9cfg c9w).2.lifecycleCalls).map (fun c => c.plan) =
      [[("bundle",
         { plugin := some "bundle", source := some "/project"
           prime := some ["bundle.yaml", "README.md"], other := [] })]] :=
  C2_implicit_bundle_plan c9args c9cfg c9w { name := some "mybundle" }
    rfl rfl rfl rfl (by decide)

/-- C7: a non-empty declared parts mapping without a part literally named
"bundle" whose plugin is "bundle" is passed to the lifecycle unchanged, and
the mandatory-file existence checks are skipped entirely. -/
theorem C7_custom_plan_verbatim (args : ParsedArgs) (cfg : Config) (w : World)
    (bc : BundleConfig)
    (hshell : args.shell = false) (hne : cfg.parts ≠ [])
    (hnosp : specialOf cfg.parts = none)
    (hbc : w.bundleConfig = some bc) (hname : strFalsy bc.name = false) :
    ((pack_bundle args cfg w).2.lifecycleCalls).map (fun c => c.plan) = [cfg.parts] ∧
    (pack_bundle args cfg w).2.mandatoryChecks = [] := by
  have hip : implicitParts cfg = cfg.parts := by
    simp [implicitParts, List.isEmpty_iff, hne]
  have hck : (mandatoryResult cfg w (specialOf (implicitParts cfg))).2 = none := by
    rw [hip, hnosp]
    rfl
  have heq := pack_bundle_eq args cfg w bc hshell hbc hname hck
  refine ⟨?_, ?_⟩
  · rw [heq, lifecycleOutcome_calls]
    simp [planOf, hip, hnosp]
  · rw [heq, lifecycleOutcome_checks]
    have hmr : (mandatoryResult cfg w (specialOf (implicitParts cfg))).1 = [] := by
      rw [hip, hnosp]
      rfl
    rw [hmr]

/-- C7 witness: a concrete custom parts mapping (one part named charm) kept
verbatim with no mandatory-file check performed, even though the mandatory
files are absent from the filesystem. -/
theorem C7_custom_plan_verbatim_witness :
    ((pack_bundle c9args
        { c9cfg with parts := [("charm", { plugin := some "charm" })] }
        { c9w with existing := [] }).2.lifecycleCalls).map (fun c => c.plan) =
      [[("charm", { plugin := some "charm" })]] ∧
    (pack_bundle c9args
        { c9cfg with parts := [("charm", { plugin := some "charm" })] }
        { c9w with existing := [] }).2.mandatoryChecks = [] :=
  C7_custom_plan_verbatim c9args
    { c9cfg with parts := [("charm", { plugin := some "charm" })] }
    { c9w with existing := [] } { name := some "mybundle" }
    rfl (by decide) rfl rfl rfl

/-- C8: the lifecycle is invoked with ignore patterns exactly the singleton
list naming the bundle archive, and the work directory is the managed home
path in managed mode and the build directory under the project root
otherwise. -/
theorem C8_lifecycle_invocation (args : ParsedArgs) (cfg : Config) (w : World)
    (bc : BundleConfig)
    (hshell : args.shell = false) (hbc : w.bundleConfig = some bc)
    (hname : strFalsy bc.name = false)
    (hck : (mandatoryResult cfg w (specialOf (implicitParts cfg))).2 = none) :
    ((pack_bundle args cfg w).2.lifecycleCalls).map (fun c => c.ignore_local_sources) =
      [[bc.name.getD "" ++ ".zip"]] ∧
    ((pack_bundle args cfg w).2.lifecycleCalls).map (fun c => c.work_dir) =
      [if w.managedMode then w.managedHome else cfg.dirpath ++ "/" ++ BUILD_DIRNAME] := by
  rw [pack_bundle_eq args cfg w bc hshell hbc hname hck]
  rw [lifecycleOutcome_calls]
  simp

/-- C8 witness: a concrete unmanaged-mode invocation with ignore pattern
mybundle.zip and work directory under the project root. -/
theorem C8_lifecycle_invocation_witness :
    ((pack_bundle c9args c9cfg c9w).2.lifecycleCalls).map (fun c => c.ignore_local_sources) =
      [["mybundle.zip"]] ∧
    ((pack_bundle c9args c9cfg c9w).2.lifecycleCalls).map (fun c => c.work_dir) =
      [if c9w.managedMode then c9w.managedHome
       else c9cfg.dirpath ++ "/" ++ BUILD_DIRNAME] :=
  C8_lifecycle_invocation c9args c9cfg c9w { name := some "mybundle" }
    rfl rfl rfl (by decide)

/-- C3 counterexample: with debug requested and the lifecycle raising an
exception that is neither RuntimeError nor CommandError, the error is
re-raised but the recovery shell is not invoked, refuting the claim's
"for every exception ... if and only if debug mode was requested, the
recovery shell collaborator is invoked exactly once". -/
theorem C3_counterexample :
    c3args.debug = true ∧
    (pack_bundle c3args c3cfg c3w).1 = .error (.exc .otherExc) ∧
    ¬ (pack_bundle c3args c3cfg c3w).2.shellCalls = 1 := by decide

/-- C3 (amended): for every RuntimeError or CommandError raised by the
lifecycle run the exception is caught, the recovery shell is invoked exactly
once if and only if debug mode was requested, and in all cases — exceptions
of other kinds included, which bypass the handler — the original exception
propagates unchanged, so the shell never converts a failure into success. -/
theorem C3_lifecycle_failure_handling (args : ParsedArgs) (cfg : Config) (w : World)
    (bc : BundleConfig) (k : ExcKind)
    (hshell : args.shell = false) (hbc : w.bundleConfig = some bc)
    (hname : strFalsy bc.name = false)
    (hck : (mandatoryResult cfg w (specialOf (implicitParts cfg))).2 = none)
    (hexc : w.lifecycleExc = some k) :
    (pack_bundle args cfg w).1 = .error (.exc k) ∧
    (pack_bundle args cfg w).2.shellCalls =
      (if caughtKind k && args.debug then 1 else 0) ∧
    (pack_bundle args cfg w).2.archives = [] := by
  rw [pack_bundle_eq args cfg w bc hshell hbc hname hck]
  unfold lifecycleOutcome
  rw [hexc]
  refine ⟨?_, ?_, ?_⟩
  · cases hc : caughtKind k <;> simp [hc]
  · cases hc : caughtKind k <;> cases hd : args.debug <;> simp [hc, hd, noEffects]
  · cases hc : caughtKind k <;> simp [hc, noEffects]

/-- C3 witness: a caught CommandError with debug requested launches the
shell exactly once and re-raises the error, leaving no archive. -/
theorem C3_lifecycle_failure_handling_witness :
    (pack_bundle c3args c3cfg { c3w with lifecycleExc := some .commandError }).1 =
      .error (.exc .commandError) ∧
    (pack_bundle c3args c3cfg { c3w with lifecycleExc := some .commandError }).2.shellCalls =
      (if caughtKind .commandError && c3args.debug then 1 else 0) ∧
    (pack_bundle c3args c3cfg
      { c3w with lifecycleExc := some .commandError }).2.archives = [] :=
  C3_lifecycle_failure_handling c3args c3cfg
    { c3w with lifecycleExc := some .commandError } { name := some "mybundle" }
    .commandError rfl rfl rfl (by decide) rfl

/-- C5: on the bundle path, an absent or unparsable bundle.yaml raises the
missing-or-invalid-bundle-file error naming that path, and a parsed
descriptor without a (non-empty) name raises the missing-name error; both
are raised before any lifecycle execution, so no archive is created. -/
theorem C5_descriptor_validation (args : ParsedArgs) (cfg : Config) (w : World)
    (hshell : args.shell = false) :
    (w.bundleConfig = none →
      (pack_bundle args cfg w).1 =
        .error (.cmd (.missingOrInvalidBundleFile (cfg.dirpath ++ "/bundle.yaml"))) ∧
      (pack_bundle args cfg w).2.lifecycleCalls = [] ∧
      (pack_bundle args cfg w).2.archives = []) ∧
    (∀ bc : BundleConfig, w.bundleConfig = some bc → strFalsy bc.name = true →
      (pack_bundle args cfg w).1 =
        .error (.cmd (.missingBundleName (cfg.dirpath ++ "/bundle.yaml"))) ∧
      (pack_bundle args cfg w).2.lifecycleCalls = [] ∧
      (pack_bundle args cfg w).2.archives = []) := by
  constructor
  · intro h
    refine ⟨?_, ?_, ?_⟩ <;> simp [pack_bundle, hshell, h, noEffects]
  · intro bc hbc hname
    refine ⟨?_, ?_, ?_⟩ <;> simp [pack_bundle, hshell, hbc, hname, noEffects]

/-- C5 witness: concrete invocations with a missing bundle.yaml and with a
parsed descriptor lacking a name, each raising the matching error with no
lifecycle call and no archive. -/
theorem C5_descriptor_validation_witness :
    ((pack_bundle c9args c9cfg { c9w with bundleConfig := none }).1 =
        .error (.cmd (.missingOrInvalidBundleFile ("/project" ++ "/bundle.yaml"))) ∧
      (pack_bundle c9args c9cfg { c9w with bundleConfig := none }).2.lifecycleCalls = [] ∧
      (pack_bundle c9args c9cfg { c9w with bundleConfig := none }).2.archives = []) ∧
    ((pack_bundle c9args c9cfg { c9w with bundleConfig := some {} }).1 =
        .error (.cmd (.missingBundleName ("/project" ++ "/bundle.yaml"))) ∧
      (pack_bundle c9args c9cfg { c9w with bundleConfig := some {} }).2.lifecycleCalls = [] ∧
      (pack_bundle c9args c9cfg { c9w with bundleConfig := some {} }).2.archives = []) :=
  ⟨(C5_descriptor_validation c9args c9cfg { c9w with bundleConfig := none } rfl).1 rfl,
   (C5_descriptor_validation c9args c9cfg { c9w with bundleConfig := some {} } rfl).2
     {} rfl rfl⟩

/-- C10: when the special bundle part exists, the two mandatory filenames
are appended to the end of its prime-filter list after any user-declared
patterns, with no deduplication; the source defaults to the project root
only when falsy. -/
theorem C10_prime_filters_appended (args : ParsedArgs) (cfg : Config) (w : World)
    (bc : BundleConfig) (p : PartDef)
    (hshell : args.shell = false) (hbc : w.bundleConfig = some bc)
    (hname : strFalsy bc.name = false)
    (hsp : specialOf (implicitParts cfg) = some p)
    (hfiles : (checkMandatory cfg.dirpath w.existing).2 = none) :
    ((pack_bundle args cfg w).2.lifecycleCalls).map (fun c => getPart c.plan "bundle") =
      [some { p with
              prime := some (p.prime.getD [] ++ ["bundle.yaml", "README.md"])
              source := if strFalsy p.source then some cfg.dirpath else p.source }] := by
  have hck : (mandatoryResult cfg w (specialOf (implicitParts cfg))).2 = none := by
    rw [hsp]
    exact hfiles
  have hget : getPart (implicitParts cfg) "bundle" = some p := by
    unfold specialOf at hsp
    revert hsp
    cases hg : getPart (implicitParts cfg) "bundle" with
    | none =>
      intro hsp
      simp at hsp
    | some q =>
      intro hsp
      by_cases hq : q.plugin = some "bundle"
      · simp [hq] at hsp
        subst hsp
        rfl
      · simp [hq] at hsp
  rw [pack_bundle_eq args cfg w bc hshell hbc hname hck, lifecycleOutcome_calls]
  simp only [List.map_cons, List.map_nil]
  unfold planOf
  rw [hsp]
  rw [getPart_setPart (implicitParts cfg) "bundle" _ p hget]
  by_cases hs : strFalsy p.source
  · simp [hs, MANDATORY_FILES]
  · simp [hs, MANDATORY_FILES]

/-- C10 witness: a declared prime list already containing bundle.yaml ends
up with bundle.yaml twice (no deduplication), the mandatory names appended
after the user pattern. -/
theorem C10_prime_filters_appended_witness :
    ((pack_bundle c9args c10cfg c9w).2.lifecycleCalls).map
        (fun c => getPart c.plan "bundle") =
      [some { plugin := some "bundle", source := some "/project"
              prime := some ["bundle.yaml", "bundle.yaml", "README.md"], other := [] }] :=
  C10_prime_filters_appended c9args c10cfg c9w { name := some "mybundle" } c10part
    rfl rfl rfl rfl (by decide)

/-- C1: the artifact type dispatch: declared type "charm" or no project
configuration selects the charm path; otherwise declared type "bundle"
selects the bundle path; any other declared value raises the fatal
unknown-type configuration error carrying the offending value. -/
theorem C1_artifact_type_dispatch (args : ParsedArgs) (cfg : Config) (w : World) :
    ((cfg.type = some "charm" ∨ cfg.config_provided = false) →
      (run args cfg w).path = some ArtifactType.charm) ∧
    ((cfg.type = some "bundle" ∧ cfg.config_provided = true) →
      (run args cfg w).path = some ArtifactType.bundle) ∧
    ((cfg.type ≠ some "charm" ∧ cfg.type ≠ some "bundle" ∧ cfg.config_provided = true) →
      (run args cfg w).path = none ∧
      (run args cfg w).result = .error (.cmd (.unknownType cfg.type))) := by
  refine ⟨?_, ?_, ?_⟩
  · intro h
    unfold run
    rw [if_pos h]
  · rintro ⟨ht, hp⟩
    have hcond : ¬(cfg.type = some "charm" ∨ cfg.config_provided = false) := by
      rintro (hc | hc)
      · rw [ht] at hc
        simp at hc
      · rw [hp] at hc
        simp at hc
    unfold run
    rw [if_neg hcond, if_pos ht]
    by_cases he : args.entrypoint.isSome = true
    · rw [if_pos he]
    · rw [if_neg he]
      by_cases hr : args.requirement.isSome = true
      · rw [if_pos hr]
      · rw [if_neg hr]
  · rintro ⟨h1, h2, hp⟩
    have hcond : ¬(cfg.type = some "charm" ∨ cfg.config_provided = false) := by
      rintro (hc | hc)
      · exact h1 hc
      · rw [hp] at hc
        simp at hc
    unfold run
    rw [if_neg hcond, if_neg h2]
    exact ⟨rfl, rfl⟩

/-- C1 witness: the dispatch at concrete configurations of each of the three
kinds. -/
theorem C1_artifact_type_dispatch_witness :
    (run c9args { type := some "charm", config_provided := true } c9w).path =
      some ArtifactType.charm ∧
    (run c9args c9cfg c9w).path = some ArtifactType.bundle ∧
    ((run c9args { type := some "magma", config_provided := true } c9w).path = none ∧
     (run c9args { type := some "magma", config_provided := true } c9w).result =
       .error (.cmd (.unknownType (some "magma")))) :=
  ⟨(C1_artifact_type_dispatch c9args
      { type := some "charm", config_provided := true } c9w).1 (Or.inl rfl),
   (C1_artifact_type_dispatch c9args c9cfg c9w).2.1 ⟨rfl, rfl⟩,
   (C1_artifact_type_dispatch c9args
      { type := some "magma", config_provided := true } c9w).2.2
     ⟨by decide, by decide, rfl⟩⟩

/-- C6: on a bundle packaging attempt, supplying the entrypoint or the
requirement option fails with a fatal usage error before any filesystem
access (no files read, no checks, no lifecycle call, no archive). -/
theorem C6_charm_only_options_rejected (args : ParsedArgs) (cfg : Config) (w : World)
    (htype : cfg.type = some "bundle") (hprov : cfg.config_provided = true)
    (hopt : args.entrypoint.isSome = true ∨ args.requirement.isSome = true) :
    ((run args cfg w).result = .error (.cmd .entrypointOnlyForCharm) ∨
      (run args cfg w).result = .error (.cmd .requirementOnlyForCharm)) ∧
    (run args cfg w).eff = noEffects := by
  have hcond : ¬(cfg.type = some "charm" ∨ cfg.config_provided = false) := by
    rintro (hc | hc)
    · rw [htype] at hc
      simp at hc
    · rw [hprov] at hc
      simp at hc
  unfold run
  rw [if_neg hcond, if_pos htype]
  by_cases he : args.entrypoint.isSome = true
  · rw [if_pos he]
    exact ⟨Or.inl rfl, rfl⟩
  · have hr : args.requirement.isSome = true := by
      rcases hopt with h | h
      · exact absurd h he
      · exact h
    rw [if_neg he, if_pos hr]
    exact ⟨Or.inr rfl, rfl⟩

/-- C6 witness: supplying an entrypoint while packing a bundle is rejected
with no effect performed. -/
theorem C6_charm_only_options_rejected_witness :
    ((run { entrypoint := some "src/charm.py" } c9cfg c9w).result =
        .error (.cmd .entrypointOnlyForCharm) ∨
      (run { entrypoint := some "src/charm.py" } c9cfg c9w).result =
        .error (.cmd .requirementOnlyForCharm)) ∧
    (run { entrypoint := some "src/charm.py" } c9cfg c9w).eff = noEffects :=
  C6_charm_only_options_rejected { entrypoint := some "src/charm.py" } c9cfg c9w
    rfl rfl (Or.inl rfl)

/-- C9: evaluated at a successful bundle invocation, `_pack_bundle` does
compute the produced-artifact list (empty exactly in the shell branch, the
single archive path on success), but `run` discards it and returns None, so
the list never reaches the invoker. -/
theorem C9_run_discards_artifact_list :
    (pack_bundle c9args c9cfg c9w).1 = .ok ["/project/mybundle.zip"] ∧
    (pack_bundle { c9args with shell := true } c9cfg c9w).1 = .ok [] ∧
    (run c9args c9cfg c9w).result = .ok none := by decide

/-! Lemmas about the archive walk. -/

theorem zipFrom_cons (root : FPath) (pr : FPath × List String)
    (rest : List (FPath × List String)) :
    zipFrom root (pr :: rest) = entriesOf root pr ++ zipFrom root rest := rfl

theorem zipFrom_append (root : FPath) (a b : List (FPath × List String)) :
    zipFrom root (a ++ b) = zipFrom root a ++ zipFrom root b := by
  simp [zipFrom]

theorem relative_to_append (root extra x : FPath) :
    relative_to ((root ++ extra) ++ x) root = extra ++ x := by
  rw [relative_to, List.append_assoc, List.drop_left]

theorem relative_to_left (root t : FPath) : relative_to (root ++ t) root = t := by
  rw [relative_to, List.drop_left]

theorem relFilesDir_perm_split (entries : List (String × FsObj)) :
    List.Perm (relFilesDir entries)
      (((levelFiles entries).map (fun n => [n])) ++ dirsRel entries) := by
  induction entries with
  | nil => simp [relFilesDir, levelFiles, dirsRel]
  | cons e rest ih =>
    obtain ⟨n, o⟩ := e
    cases o with
    | file =>
      simp only [relFilesDir, levelFiles, dirsRel, List.map_cons, List.cons_append]
      exact ih.cons [n]
    | dir es =>
      simp only [relFilesDir, levelFiles, dirsRel]
      have h2 : List.Perm
          (((relFilesDir es).map (fun p => n :: p) ++ (levelFiles rest).map (fun m => [m])) ++
            dirsRel rest)
          (((levelFiles rest).map (fun m => [m]) ++ (relFilesDir es).map (fun p => n :: p)) ++
            dirsRel rest) :=
        List.perm_append_comm.append_right _
      refine (ih.append_left _).trans ?_
      simpa [List.append_assoc] using h2

theorem walkSub_zip_perm (root : FPath) :
    (extra : FPath) → (entries : List (String × FsObj)) →
      List.Perm (zipFrom root (walkSub (root ++ extra) entries))
        ((dirsRel entries).map (fun p => extra ++ p))
  | extra, [] => by
      simp [walkSub, zipFrom, dirsRel]
  | extra, (n, .file) :: rest => by
      simpa [walkSub, dirsRel] using walkSub_zip_perm root extra rest
  | extra, (n, .dir es) :: rest => by
      have hes := walkSub_zip_perm root (extra ++ [n]) es
      have hrest := walkSub_zip_perm root extra rest
      have hsplit := relFilesDir_perm_split es
      have hA : zipFrom root (walkDir ((root ++ extra) ++ [n]) es) =
          (levelFiles es).map (fun fn => (extra ++ [n]) ++ [fn]) ++
            zipFrom root (walkSub (root ++ (extra ++ [n])) es) := by
        rw [List.append_assoc, walkDir, zipFrom_cons]
        congr 1
        simp [entriesOf, relative_to_left]
      have hmain : List.Perm (zipFrom root (walkDir ((root ++ extra) ++ [n]) es))
          ((relFilesDir es).map (fun p => extra ++ (n :: p))) := by
        rw [hA]
        refine (hes.append_left _).trans ?_
        have hcollect :
            (levelFiles es).map (fun fn => (extra ++ [n]) ++ [fn]) ++
              (dirsRel es).map (fun p => (extra ++ [n]) ++ p) =
            (((levelFiles es).map (fun m => [m])) ++ dirsRel es).map
              (fun p => (extra ++ [n]) ++ p) := by
          simp [List.map_append, List.map_map, Function.comp]
        rw [hcollect]
        refine (hsplit.symm.map _).trans ?_
        have hfun : (relFilesDir es).map (fun p => (extra ++ [n]) ++ p) =
            (relFilesDir es).map (fun p => extra ++ (n :: p)) := by
          simp [List.append_assoc]
        exact hfun ▸ List.Perm.refl _
      show List.Perm (zipFrom root (walkSub (root ++ extra) ((n, .dir es) :: rest)))
        ((dirsRel ((n, .dir es) :: rest)).map (fun p => extra ++ p))
      simp only [walkSub, dirsRel, zipFrom_append, List.map_append, List.map_map]
      exact hmain.append hrest

theorem build_zip_perm (prime_dir : FPath) (tree : List (String × FsObj)) :
    List.Perm (build_zip prime_dir tree) (relFilesDir tree) := by
  have hz : build_zip prime_dir tree = zipFrom prime_dir (walkDir prime_dir tree) := rfl
  rw [hz, walkDir, zipFrom_cons]
  have hsub := walkSub_zip_perm prime_dir [] tree
  rw [List.append_nil] at hsub
  have hsub2 : List.Perm (zipFrom prime_dir (walkSub prime_dir tree)) (dirsRel tree) := by
    simpa using hsub
  have hhead : entriesOf prime_dir (prime_dir, levelFiles tree) =
      (levelFiles tree).map (fun m => [m]) := by
    simp [entriesOf, relative_to_left]
  rw [hhead]
  exact (hsub2.append_left _).trans (relFilesDir_perm_split tree).symm

/-- C4: the archive builder writes one entry per regular file reachable by
the recursive walk, every entry name being the file's path relative to the
source directory root; in particular a directory holding a/b.txt and c.txt
yields exactly the entries a/b.txt and c.txt. -/
theorem C4_archive_entries_relative :
    (∀ (prime_dir : FPath) (tree : List (String × FsObj)),
      List.Perm (build_zip prime_dir tree) (relFilesDir tree)) ∧
    List.Perm
      (build_zip ["tmp", "prime"] [("a", .dir [("b.txt", .file)]), ("c.txt", .file)])
      [["a", "b.txt"], ["c.txt"]] := by
  refine ⟨build_zip_perm, ?_⟩
  have h : build_zip ["tmp", "prime"] [("a", .dir [("b.txt", .file)]), ("c.txt", .file)] =
      [["c.txt"], ["a", "b.txt"]] := by
    simp [build_zip, walkDir, walkSub, levelFiles, relative_to]
  rw [h]
  decide

end Charmcraft
